import Mathlib

/-!
Verification of `backend/blocks/twitter/users/blocks.py` from the
Auto-GPT platform: the three Twitter user blocks
(`TwitterUnblockUserBlock`, `TwitterGetBlockedUsersBlock`,
`TwitterBlockUserBlock`).

Embedding conventions:
* A Python dict with string values is an association list `Dict`.
* The tweepy vendor client is an oracle function passed as a parameter;
  its result is `Except PyExc _`, where `Except.error` models a raised
  exception and `Except.ok` a normal return.
* Each static helper is embedded twice over the same control flow: the
  `..T` version additionally returns the trace of vendor calls it makes
  (one list entry per invocation of the vendor client), and the plain
  version projects out the result.  The source has a single vendor call
  executed unconditionally, so the trace is a singleton on every path.
* A `run` generator is a function returning the list of
  (output name, value) pairs it yields, in order.
-/

/-- A Python string-valued dict, as an association list. -/
abbrev Dict := List (String × String)

/-- A Python exception: either a `tweepy.TweepyException` or any other
exception, both carrying a message. -/
inductive PyExc where
  | tweepy (msg : String)
  | other (msg : String)
deriving DecidableEq, Repr

/-- Twitter credentials; only the access token is used by the blocks. -/
structure TwitterCredentials where
  access_token : String
deriving DecidableEq, Repr

/-- Modelled from the spec: `UserExpansionsFilter`
(`backend.blocks.twitter._types`, not included in the sources) is an
opaque expansions filter passed through to the vendor request. -/
structure UserExpansionsFilter where
  value : List String
deriving DecidableEq, Repr

/-- Modelled from the spec: `TweetFieldsFilter`
(`backend.blocks.twitter._types`, not included in the sources) is an
opaque tweet-fields filter passed through to the vendor request. -/
structure TweetFieldsFilter where
  value : List String
deriving DecidableEq, Repr

/-- Modelled from the spec: `TweetUserFieldsFilter`
(`backend.blocks.twitter._types`, not included in the sources) is an
opaque user-fields filter passed through to the vendor request. -/
structure TweetUserFieldsFilter where
  value : List String
deriving DecidableEq, Repr

/-- Modelled from the spec: `handle_tweepy_exception`
(`backend.blocks.twitter.tweepy_exceptions`, not included in the
sources) converts any exception into a single human-readable error
string; no distinction is made between retryable and fatal kinds. -/
def handle_tweepy_exception : PyExc → String
  | PyExc.tweepy msg => "Twitter API error: " ++ msg
  | PyExc.other msg => "Unexpected error: " ++ msg

/-- A user record of the vendor response: `user.id` (an integer in the
vendor SDK) and `user.username`. -/
structure TwUser where
  id : Nat
  username : String
deriving DecidableEq, Repr

/-- The vendor `Response` for `get_blocked`: `response.data` (list of
user records, the empty list standing for an absent/empty `data`),
`response.includes`, and `response.meta`. -/
structure Response where
  data : List TwUser
  includes : Dict
  meta : Dict
deriving DecidableEq, Repr

/-- The value yielded on one output of a block. -/
inductive OutValue where
  | str (s : String)
  | bool (b : Bool)
  | strList (l : List String)
  | dict (d : Dict)
deriving DecidableEq, Repr

/-- A `run` generator's yields: the (output name, value) pairs in order. -/
abbrev BlockOutput := List (String × OutValue)

/-- The request parameters passed to the vendor `get_blocked` call.
The first three fields are the `params` dict built in
`get_blocked_users`; the remaining fields are the entries that
`UserExpansionsBuilder` (modelled from the spec:
`backend.blocks.twitter._builders`, not included in the sources) adds
for each present filter. -/
structure BlockedRequest where
  max_results : Option Int
  pagination_token : Option String
  user_auth : Bool
  expansions : Option UserExpansionsFilter
  tweet_fields : Option TweetFieldsFilter
  user_fields : Option TweetUserFieldsFilter
deriving DecidableEq, Repr

namespace TwitterUnblockUserBlock

/-- Input schema of `TwitterUnblockUserBlock` (credentials are passed
separately to `run`, as in the source). -/
structure Input where
  target_user_id : String
deriving DecidableEq, Repr

/-- `TwitterUnblockUserBlock.unblock_user`, with the trace of vendor
calls made (`client.unblock` invocations, by credentials and target).
The vendor oracle models `tweepy.Client(...).unblock(...)`; the
`except tweepy.TweepyException: raise` clause re-raises unchanged, and
any other exception propagates uncaught, so every error passes through. -/
def unblock_userT (vendor : TwitterCredentials → String → Except PyExc Unit)
    (credentials : TwitterCredentials) (target_user_id : String) :
    Except PyExc Bool × List (TwitterCredentials × String) :=
  match vendor credentials target_user_id with
  | Except.ok _ => (Except.ok true, [(credentials, target_user_id)])
  | Except.error e => (Except.error e, [(credentials, target_user_id)])

/-- `TwitterUnblockUserBlock.unblock_user`: the result alone. -/
def unblock_user (vendor : TwitterCredentials → String → Except PyExc Unit)
    (credentials : TwitterCredentials) (target_user_id : String) :
    Except PyExc Bool :=
  (unblock_userT vendor credentials target_user_id).1

/-- `TwitterUnblockUserBlock.run`: yields `("success", success)` on
normal return of `unblock_user`; `except Exception as e` catches any
exception and yields `("error", handle_tweepy_exception e)`. -/
def run (vendor : TwitterCredentials → String → Except PyExc Unit)
    (input_data : Input) (credentials : TwitterCredentials) : BlockOutput :=
  match unblock_user vendor credentials input_data.target_user_id with
  | Except.ok success => [("success", OutValue.bool success)]
  | Except.error e => [("error", OutValue.str (handle_tweepy_exception e))]

end TwitterUnblockUserBlock

namespace TwitterBlockUserBlock

/-- Input schema of `TwitterBlockUserBlock`. -/
structure Input where
  target_user_id : String
deriving DecidableEq, Repr

/-- `TwitterBlockUserBlock.block_user`, with the trace of vendor calls
made (`client.block` invocations). Control flow is identical to
`unblock_user` but for the vendor method called. -/
def block_userT (vendor : TwitterCredentials → String → Except PyExc Unit)
    (credentials : TwitterCredentials) (target_user_id : String) :
    Except PyExc Bool × List (TwitterCredentials × String) :=
  match vendor credentials target_user_id with
  | Except.ok _ => (Except.ok true, [(credentials, target_user_id)])
  | Except.error e => (Except.error e, [(credentials, target_user_id)])

/-- `TwitterBlockUserBlock.block_user`: the result alone. -/
def block_user (vendor : TwitterCredentials → String → Except PyExc Unit)
    (credentials : TwitterCredentials) (target_user_id : String) :
    Except PyExc Bool :=
  (block_userT vendor credentials target_user_id).1

/-- `TwitterBlockUserBlock.run`. -/
def run (vendor : TwitterCredentials → String → Except PyExc Unit)
    (input_data : Input) (credentials : TwitterCredentials) : BlockOutput :=
  match block_user vendor credentials input_data.target_user_id with
  | Except.ok success => [("success", OutValue.bool success)]
  | Except.error e => [("error", OutValue.str (handle_tweepy_exception e))]

end TwitterBlockUserBlock

namespace TwitterGetBlockedUsersBlock

/-- Input schema of `TwitterGetBlockedUsersBlock`. -/
structure Input where
  max_results : Option Int
  pagination_token : Option String
  expansions : Option UserExpansionsFilter
  tweet_fields : Option TweetFieldsFilter
  user_fields : Option TweetUserFieldsFilter
deriving DecidableEq, Repr

/-- The request built in `get_blocked_users`: the `params` dict, with an
empty-string `pagination_token` normalised to `None`
(`None if pagination_token == "" else pagination_token`), then extended
by the `UserExpansionsBuilder` chain with the three filters. -/
def requestParams (max_results : Option Int) (pagination_token : Option String)
    (expansions : Option UserExpansionsFilter)
    (tweet_fields : Option TweetFieldsFilter)
    (user_fields : Option TweetUserFieldsFilter) : BlockedRequest :=
  { max_results := max_results
    pagination_token := if pagination_token = some "" then none else pagination_token
    user_auth := false
    expansions := expansions
    tweet_fields := tweet_fields
    user_fields := user_fields }

/-- The success payload of `get_blocked_users`:
(included, meta, user_ids, usernames, next_token). -/
abbrev Payload := Dict × Dict × List String × List String × Option String

/-- `TwitterGetBlockedUsersBlock.get_blocked_users`, with the trace of
vendor calls made (`client.get_blocked` invocations).

* `vendor` models `tweepy.Client(...).get_blocked(**params)`;
* `serialize` models `IncludesSerializer.serialize`
  (`backend.blocks.twitter._serializer`, not included in the sources),
  applied to `response.includes`;
* the `for user in response.data` loop appends `str(user.id)` to
  `user_ids` and `user.username` to `usernames` in each iteration,
  which is the pair of maps below;
* `response.meta`, when truthy (non-empty), becomes `meta`, and its
  `next_token` entry, when present, becomes `next_token`;
* `if user_ids and usernames` returns the payload when both lists are
  truthy and otherwise raises `TweepyException("No blocked users found")`;
* the `except tweepy.TweepyException: raise` clause re-raises unchanged. -/
def get_blocked_usersT
    (vendor : TwitterCredentials → BlockedRequest → Except PyExc Response)
    (serialize : Dict → Dict)
    (credentials : TwitterCredentials)
    (max_results : Option Int) (pagination_token : Option String)
    (expansions : Option UserExpansionsFilter)
    (tweet_fields : Option TweetFieldsFilter)
    (user_fields : Option TweetUserFieldsFilter) :
    Except PyExc Payload × List (TwitterCredentials × BlockedRequest) :=
  let params := requestParams max_results pagination_token expansions
    tweet_fields user_fields
  match vendor credentials params with
  | Except.error e => (Except.error e, [(credentials, params)])
  | Except.ok response =>
    let included := serialize response.includes
    let user_ids := response.data.map (fun user => toString user.id)
    let usernames := response.data.map (fun user => user.username)
    let meta := if response.meta.isEmpty then [] else response.meta
    let next_token :=
      if response.meta.isEmpty then none else response.meta.lookup "next_token"
    if !user_ids.isEmpty && !usernames.isEmpty then
      (Except.ok (included, meta, user_ids, usernames, next_token),
        [(credentials, params)])
    else
      (Except.error (PyExc.tweepy "No blocked users found"),
        [(credentials, params)])

/-- `TwitterGetBlockedUsersBlock.get_blocked_users`: the result alone. -/
def get_blocked_users
    (vendor : TwitterCredentials → BlockedRequest → Except PyExc Response)
    (serialize : Dict → Dict)
    (credentials : TwitterCredentials)
    (max_results : Option Int) (pagination_token : Option String)
    (expansions : Option UserExpansionsFilter)
    (tweet_fields : Option TweetFieldsFilter)
    (user_fields : Option TweetUserFieldsFilter) :
    Except PyExc Payload :=
  (get_blocked_usersT vendor serialize credentials max_results pagination_token
    expansions tweet_fields user_fields).1

/-- `TwitterGetBlockedUsersBlock.run`: on normal return yields each of
`user_ids`, `usernames_`, `included`, `meta`, `next_token` guarded by
Python truthiness (`if user_ids:` etc.; an `Option String` is truthy
when it is `some` of a non-empty string); `except Exception as e`
yields `("error", handle_tweepy_exception e)`. -/
def run
    (vendor : TwitterCredentials → BlockedRequest → Except PyExc Response)
    (serialize : Dict → Dict)
    (input_data : Input) (credentials : TwitterCredentials) : BlockOutput :=
  match get_blocked_users vendor serialize credentials input_data.max_results
    input_data.pagination_token input_data.expansions input_data.tweet_fields
    input_data.user_fields with
  | Except.error e => [("error", OutValue.str (handle_tweepy_exception e))]
  | Except.ok (included, meta, user_ids, usernames, next_token) =>
    (if user_ids.isEmpty then [] else [("user_ids", OutValue.strList user_ids)]) ++
    (if usernames.isEmpty then [] else [("usernames_", OutValue.strList usernames)]) ++
    (if included.isEmpty then [] else [("included", OutValue.dict included)]) ++
    (if meta.isEmpty then [] else [("meta", OutValue.dict meta)]) ++
    (match next_token with
      | some t => if t = "" then [] else [("next_token", OutValue.str t)]
      | none => [])

end TwitterGetBlockedUsersBlock

/-! ## Helper lemmas shared by the claims -/

/-- Characterisation of `get_blocked_users` when the vendor call raises:
the exception passes through unchanged. -/
theorem TwitterGetBlockedUsersBlock.get_blocked_users_vendor_error
    (vendor : TwitterCredentials → BlockedRequest → Except PyExc Response)
    (serialize : Dict → Dict) (credentials : TwitterCredentials)
    (mr : Option Int) (pt : Option String)
    (ex : Option UserExpansionsFilter) (tf : Option TweetFieldsFilter)
    (uf : Option TweetUserFieldsFilter) (e : PyExc)
    (hv : vendor credentials (requestParams mr pt ex tf uf) = Except.error e) :
    get_blocked_users vendor serialize credentials mr pt ex tf uf =
      Except.error e := by
  simp only [get_blocked_users, get_blocked_usersT]
  rw [hv]

/-- Characterisation of `get_blocked_users` when the vendor call returns
a response: the result is the shaped payload when `response.data` is
non-empty, and the "No blocked users found" exception otherwise. -/
theorem TwitterGetBlockedUsersBlock.get_blocked_users_vendor_ok
    (vendor : TwitterCredentials → BlockedRequest → Except PyExc Response)
    (serialize : Dict → Dict) (credentials : TwitterCredentials)
    (mr : Option Int) (pt : Option String)
    (ex : Option UserExpansionsFilter) (tf : Option TweetFieldsFilter)
    (uf : Option TweetUserFieldsFilter) (resp : Response)
    (hv : vendor credentials (requestParams mr pt ex tf uf) = Except.ok resp) :
    get_blocked_users vendor serialize credentials mr pt ex tf uf =
      if resp.data = [] then
        Except.error (PyExc.tweepy "No blocked users found")
      else
        Except.ok (serialize resp.includes,
          (if resp.meta = [] then [] else resp.meta),
          resp.data.map (fun user => toString user.id),
          resp.data.map (fun user => user.username),
          (if resp.meta = [] then none
            else resp.meta.lookup "next_token")) := by
  simp only [get_blocked_users, get_blocked_usersT]
  rw [hv]
  by_cases hd : resp.data = []
  · simp [hd]
  · simp [hd]

/-- The `run` generator of the get-blocked-users block on the exception
path yields the single error output. -/
theorem TwitterGetBlockedUsersBlock.blocked_run_error_case
    (vendor : TwitterCredentials → BlockedRequest → Except PyExc Response)
    (serialize : Dict → Dict) (input_data : Input)
    (credentials : TwitterCredentials) (e : PyExc)
    (h : get_blocked_users vendor serialize credentials input_data.max_results
      input_data.pagination_token input_data.expansions input_data.tweet_fields
      input_data.user_fields = Except.error e) :
    run vendor serialize input_data credentials =
      [("error", OutValue.str (handle_tweepy_exception e))] := by
  unfold run
  rw [h]

/-- The `run` generator of the get-blocked-users block on the normal
path yields the truthiness-guarded payload outputs. -/
theorem TwitterGetBlockedUsersBlock.blocked_run_ok_case
    (vendor : TwitterCredentials → BlockedRequest → Except PyExc Response)
    (serialize : Dict → Dict) (input_data : Input)
    (credentials : TwitterCredentials) (included meta : Dict)
    (user_ids usernames : List String) (next_token : Option String)
    (h : get_blocked_users vendor serialize credentials input_data.max_results
      input_data.pagination_token input_data.expansions input_data.tweet_fields
      input_data.user_fields =
      Except.ok (included, meta, user_ids, usernames, next_token)) :
    run vendor serialize input_data credentials =
      (if user_ids.isEmpty then []
        else [("user_ids", OutValue.strList user_ids)]) ++
      (if usernames.isEmpty then []
        else [("usernames_", OutValue.strList usernames)]) ++
      (if included.isEmpty then []
        else [("included", OutValue.dict included)]) ++
      (if meta.isEmpty then [] else [("meta", OutValue.dict meta)]) ++
      next_token.elim []
        (fun t => if t = "" then [] else [("next_token", OutValue.str t)]) := by
  unfold run
  split
  · rename_i e heq
    rw [h] at heq
    cases heq
  · rename_i a b c d nt heq
    rw [h] at heq
    injection heq with heq2
    injection heq2 with h1 heq3
    injection heq3 with h2 heq4
    injection heq4 with h3 heq5
    injection heq5 with h4 h5
    subst h1 h2 h3 h4 h5
    cases next_token <;> rfl

/-- The unblock block's run generator on the normal path. -/
theorem TwitterUnblockUserBlock.unblock_run_ok_case
    (vendor : TwitterCredentials → String → Except PyExc Unit)
    (input_data : Input) (credentials : TwitterCredentials) (b : Bool)
    (h : unblock_user vendor credentials input_data.target_user_id =
      Except.ok b) :
    run vendor input_data credentials = [("success", OutValue.bool b)] := by
  unfold run
  rw [h]

/-- The unblock block's run generator on the exception path. -/
theorem TwitterUnblockUserBlock.unblock_run_error_case
    (vendor : TwitterCredentials → String → Except PyExc Unit)
    (input_data : Input) (credentials : TwitterCredentials) (e : PyExc)
    (h : unblock_user vendor credentials input_data.target_user_id =
      Except.error e) :
    run vendor input_data credentials =
      [("error", OutValue.str (handle_tweepy_exception e))] := by
  unfold run
  rw [h]

/-- A normal return of `unblock_user` is always `true`. -/
theorem TwitterUnblockUserBlock.unblock_user_ok
    (vendor : TwitterCredentials → String → Except PyExc Unit)
    (credentials : TwitterCredentials) (target_user_id : String) (b : Bool)
    (h : unblock_user vendor credentials target_user_id = Except.ok b) :
    b = true := by
  unfold unblock_user unblock_userT at h
  cases hv : vendor credentials target_user_id <;> rw [hv] at h <;> simp_all

/-- `unblock_user` propagates a vendor exception unchanged. -/
theorem TwitterUnblockUserBlock.unblock_user_vendor_error
    (vendor : TwitterCredentials → String → Except PyExc Unit)
    (credentials : TwitterCredentials) (target_user_id : String) (e : PyExc)
    (hv : vendor credentials target_user_id = Except.error e) :
    unblock_user vendor credentials target_user_id = Except.error e := by
  unfold unblock_user unblock_userT
  rw [hv]

/-- `unblock_user` returns `True` when the vendor call succeeds. -/
theorem TwitterUnblockUserBlock.unblock_user_vendor_ok
    (vendor : TwitterCredentials → String → Except PyExc Unit)
    (credentials : TwitterCredentials) (target_user_id : String)
    (hv : vendor credentials target_user_id = Except.ok ()) :
    unblock_user vendor credentials target_user_id = Except.ok true := by
  unfold unblock_user unblock_userT
  rw [hv]

/-- The block block's run generator on the normal path. -/
theorem TwitterBlockUserBlock.block_run_ok_case
    (vendor : TwitterCredentials → String → Except PyExc Unit)
    (input_data : Input) (credentials : TwitterCredentials) (b : Bool)
    (h : block_user vendor credentials input_data.target_user_id =
      Except.ok b) :
    run vendor input_data credentials = [("success", OutValue.bool b)] := by
  unfold run
  rw [h]

/-- The block block's run generator on the exception path. -/
theorem TwitterBlockUserBlock.block_run_error_case
    (vendor : TwitterCredentials → String → Except PyExc Unit)
    (input_data : Input) (credentials : TwitterCredentials) (e : PyExc)
    (h : block_user vendor credentials input_data.target_user_id =
      Except.error e) :
    run vendor input_data credentials =
      [("error", OutValue.str (handle_tweepy_exception e))] := by
  unfold run
  rw [h]

/-- A normal return of `block_user` is always `true`. -/
theorem TwitterBlockUserBlock.block_user_ok
    (vendor : TwitterCredentials → String → Except PyExc Unit)
    (credentials : TwitterCredentials) (target_user_id : String) (b : Bool)
    (h : block_user vendor credentials target_user_id = Except.ok b) :
    b = true := by
  unfold block_user block_userT at h
  cases hv : vendor credentials target_user_id <;> rw [hv] at h <;> simp_all

/-- `block_user` propagates a vendor exception unchanged. -/
theorem TwitterBlockUserBlock.block_user_vendor_error
    (vendor : TwitterCredentials → String → Except PyExc Unit)
    (credentials : TwitterCredentials) (target_user_id : String) (e : PyExc)
    (hv : vendor credentials target_user_id = Except.error e) :
    block_user vendor credentials target_user_id = Except.error e := by
  unfold block_user block_userT
  rw [hv]

/-- `block_user` returns `True` when the vendor call succeeds. -/
theorem TwitterBlockUserBlock.block_user_vendor_ok
    (vendor : TwitterCredentials → String → Except PyExc Unit)
    (credentials : TwitterCredentials) (target_user_id : String)
    (hv : vendor credentials target_user_id = Except.ok ()) :
    block_user vendor credentials target_user_id = Except.ok true := by
  unfold block_user block_userT
  rw [hv]

/-! ## Claims -/

/-- Claim C4: for every target_user_id on which the vendor block/unblock
call completes without raising, `block_user` and `unblock_user` return
`True`, and the block's run generator yields `("success", True)`. -/
theorem claim_C4_block_unblock_success
    (vu vb : TwitterCredentials → String → Except PyExc Unit)
    (credentials : TwitterCredentials) (target_user_id : String)
    (hu : vu credentials target_user_id = Except.ok ())
    (hb : vb credentials target_user_id = Except.ok ()) :
    TwitterUnblockUserBlock.unblock_user vu credentials target_user_id =
      Except.ok true ∧
    TwitterUnblockUserBlock.run vu ⟨target_user_id⟩ credentials =
      [("success", OutValue.bool true)] ∧
    TwitterBlockUserBlock.block_user vb credentials target_user_id =
      Except.ok true ∧
    TwitterBlockUserBlock.run vb ⟨target_user_id⟩ credentials =
      [("success", OutValue.bool true)] := by
  have h1 := TwitterUnblockUserBlock.unblock_user_vendor_ok vu credentials
    target_user_id hu
  have h2 := TwitterBlockUserBlock.block_user_vendor_ok vb credentials
    target_user_id hb
  exact ⟨h1,
    TwitterUnblockUserBlock.unblock_run_ok_case vu ⟨target_user_id⟩ credentials true h1,
    h2,
    TwitterBlockUserBlock.block_run_ok_case vb ⟨target_user_id⟩ credentials true h2⟩

/-- Witness for C4: a vendor call that succeeds, at concrete inputs. -/
theorem claim_C4_witness :
    (fun (_ : TwitterCredentials) (_ : String) =>
      (Except.ok () : Except PyExc Unit)) ⟨"tok"⟩ "12345" = Except.ok () ∧
    (TwitterUnblockUserBlock.unblock_user
        (fun _ _ => Except.ok ()) ⟨"tok"⟩ "12345" = Except.ok true ∧
      TwitterUnblockUserBlock.run
        (fun _ _ => Except.ok ()) ⟨"12345"⟩ ⟨"tok"⟩ =
          [("success", OutValue.bool true)] ∧
      TwitterBlockUserBlock.block_user
        (fun _ _ => Except.ok ()) ⟨"tok"⟩ "12345" = Except.ok true ∧
      TwitterBlockUserBlock.run
        (fun _ _ => Except.ok ()) ⟨"12345"⟩ ⟨"tok"⟩ =
          [("success", OutValue.bool true)]) :=
  ⟨rfl, claim_C4_block_unblock_success (fun _ _ => Except.ok ())
    (fun _ _ => Except.ok ()) ⟨"tok"⟩ "12345" rfl rfl⟩

/-- Claim C3: whenever the underlying operation raises, the run generator
of each of the three blocks yields exactly one value on the error output,
the string produced by `handle_tweepy_exception`. -/
theorem claim_C3_exceptions_to_error_output
    (vu vb : TwitterCredentials → String → Except PyExc Unit)
    (vg : TwitterCredentials → BlockedRequest → Except PyExc Response)
    (serialize : Dict → Dict) (credentials : TwitterCredentials)
    (iu : TwitterUnblockUserBlock.Input) (ib : TwitterBlockUserBlock.Input)
    (ig : TwitterGetBlockedUsersBlock.Input) (e1 e2 e3 : PyExc)
    (hu : TwitterUnblockUserBlock.unblock_user vu credentials
      iu.target_user_id = Except.error e1)
    (hb : TwitterBlockUserBlock.block_user vb credentials
      ib.target_user_id = Except.error e2)
    (hg : TwitterGetBlockedUsersBlock.get_blocked_users vg serialize
      credentials ig.max_results ig.pagination_token ig.expansions
      ig.tweet_fields ig.user_fields = Except.error e3) :
    TwitterUnblockUserBlock.run vu iu credentials =
      [("error", OutValue.str (handle_tweepy_exception e1))] ∧
    TwitterBlockUserBlock.run vb ib credentials =
      [("error", OutValue.str (handle_tweepy_exception e2))] ∧
    TwitterGetBlockedUsersBlock.run vg serialize ig credentials =
      [("error", OutValue.str (handle_tweepy_exception e3))] :=
  ⟨TwitterUnblockUserBlock.unblock_run_error_case vu iu credentials e1 hu,
    TwitterBlockUserBlock.block_run_error_case vb ib credentials e2 hb,
    TwitterGetBlockedUsersBlock.blocked_run_error_case vg serialize ig credentials
      e3 hg⟩

/-- Witness for C3: vendors that raise, at concrete inputs. -/
theorem claim_C3_witness :
    TwitterUnblockUserBlock.unblock_user
      (fun _ _ => Except.error (PyExc.tweepy "boom")) ⟨"tok"⟩ "12345" =
        Except.error (PyExc.tweepy "boom") ∧
    (TwitterUnblockUserBlock.run
        (fun _ _ => Except.error (PyExc.tweepy "boom")) ⟨"12345"⟩ ⟨"tok"⟩ =
        [("error",
          OutValue.str (handle_tweepy_exception (PyExc.tweepy "boom")))] ∧
      TwitterBlockUserBlock.run
        (fun _ _ => Except.error (PyExc.tweepy "boom")) ⟨"12345"⟩ ⟨"tok"⟩ =
        [("error",
          OutValue.str (handle_tweepy_exception (PyExc.tweepy "boom")))] ∧
      TwitterGetBlockedUsersBlock.run
        (fun _ _ => Except.error (PyExc.other "down")) (fun d => d)
        ⟨some 10, some "", none, none, none⟩ ⟨"tok"⟩ =
        [("error",
          OutValue.str (handle_tweepy_exception (PyExc.other "down")))]) :=
  ⟨rfl, claim_C3_exceptions_to_error_output
    (fun _ _ => Except.error (PyExc.tweepy "boom"))
    (fun _ _ => Except.error (PyExc.tweepy "boom"))
    (fun _ _ => Except.error (PyExc.other "down")) (fun d => d) ⟨"tok"⟩
    ⟨"12345"⟩ ⟨"12345"⟩ ⟨some 10, some "", none, none, none⟩
    (PyExc.tweepy "boom") (PyExc.tweepy "boom") (PyExc.other "down")
    rfl rfl rfl⟩

/-- `unblock_userT` records exactly one vendor call on every path. -/
theorem TwitterUnblockUserBlock.unblock_userT_trace
    (vendor : TwitterCredentials → String → Except PyExc Unit)
    (credentials : TwitterCredentials) (target_user_id : String) :
    (unblock_userT vendor credentials target_user_id).2 =
      [(credentials, target_user_id)] := by
  unfold unblock_userT
  cases vendor credentials target_user_id <;> rfl

/-- `block_userT` records exactly one vendor call on every path. -/
theorem TwitterBlockUserBlock.block_userT_trace
    (vendor : TwitterCredentials → String → Except PyExc Unit)
    (credentials : TwitterCredentials) (target_user_id : String) :
    (block_userT vendor credentials target_user_id).2 =
      [(credentials, target_user_id)] := by
  unfold block_userT
  cases vendor credentials target_user_id <;> rfl

/-- `get_blocked_usersT` records exactly one vendor call on every path. -/
theorem TwitterGetBlockedUsersBlock.get_blocked_usersT_trace
    (vendor : TwitterCredentials → BlockedRequest → Except PyExc Response)
    (serialize : Dict → Dict) (credentials : TwitterCredentials)
    (mr : Option Int) (pt : Option String)
    (ex : Option UserExpansionsFilter) (tf : Option TweetFieldsFilter)
    (uf : Option TweetUserFieldsFilter) :
    (get_blocked_usersT vendor serialize credentials mr pt ex tf uf).2 =
      [(credentials, requestParams mr pt ex tf uf)] := by
  simp only [get_blocked_usersT]
  cases vendor credentials (requestParams mr pt ex tf uf) with
  | error e => rfl
  | ok response => split <;> first | rfl | (split <;> rfl)

/-- Claim C6: the static helpers perform no retry: each makes the vendor
call at most once (the call trace has length at most one for every
vendor oracle), and a vendor exception is re-raised unchanged. -/
theorem claim_C6_no_retry_exception_passthrough
    (vu vb : TwitterCredentials → String → Except PyExc Unit)
    (vg : TwitterCredentials → BlockedRequest → Except PyExc Response)
    (serialize : Dict → Dict) (credentials : TwitterCredentials)
    (target_user_id : String) (mr : Option Int) (pt : Option String)
    (ex : Option UserExpansionsFilter) (tf : Option TweetFieldsFilter)
    (uf : Option TweetUserFieldsFilter) (e1 e2 e3 : PyExc)
    (hu : vu credentials target_user_id = Except.error e1)
    (hb : vb credentials target_user_id = Except.error e2)
    (hg : vg credentials (TwitterGetBlockedUsersBlock.requestParams
      mr pt ex tf uf) = Except.error e3) :
    (∀ (v : TwitterCredentials → String → Except PyExc Unit)
      (c : TwitterCredentials) (t : String),
      (TwitterUnblockUserBlock.unblock_userT v c t).2.length ≤ 1 ∧
      (TwitterBlockUserBlock.block_userT v c t).2.length ≤ 1) ∧
    (∀ (v : TwitterCredentials → BlockedRequest → Except PyExc Response)
      (s : Dict → Dict) (c : TwitterCredentials) (m : Option Int)
      (p : Option String) (e : Option UserExpansionsFilter)
      (t : Option TweetFieldsFilter) (u : Option TweetUserFieldsFilter),
      (TwitterGetBlockedUsersBlock.get_blocked_usersT
        v s c m p e t u).2.length ≤ 1) ∧
    TwitterUnblockUserBlock.unblock_user vu credentials target_user_id =
      Except.error e1 ∧
    TwitterBlockUserBlock.block_user vb credentials target_user_id =
      Except.error e2 ∧
    TwitterGetBlockedUsersBlock.get_blocked_users vg serialize credentials
      mr pt ex tf uf = Except.error e3 := by
  refine ⟨fun v c t => ⟨?_, ?_⟩, fun v s c m p e t u => ?_, ?_, ?_, ?_⟩
  · rw [TwitterUnblockUserBlock.unblock_userT_trace]
    simp
  · rw [TwitterBlockUserBlock.block_userT_trace]
    simp
  · rw [TwitterGetBlockedUsersBlock.get_blocked_usersT_trace]
    simp
  · exact TwitterUnblockUserBlock.unblock_user_vendor_error vu credentials
      target_user_id e1 hu
  · exact TwitterBlockUserBlock.block_user_vendor_error vb credentials
      target_user_id e2 hb
  · exact TwitterGetBlockedUsersBlock.get_blocked_users_vendor_error vg
      serialize credentials mr pt ex tf uf e3 hg

/-- Witness for C6: erroring vendors at concrete inputs. -/
theorem claim_C6_witness :
    (fun (_ : TwitterCredentials) (_ : String) =>
      (Except.error (PyExc.tweepy "rate limited") : Except PyExc Unit))
        ⟨"tok"⟩ "99" = Except.error (PyExc.tweepy "rate limited") ∧
    ((TwitterUnblockUserBlock.unblock_userT
        (fun _ _ => Except.error (PyExc.tweepy "rate limited"))
        ⟨"tok"⟩ "99").2.length ≤ 1 ∧
      TwitterUnblockUserBlock.unblock_user
        (fun _ _ => Except.error (PyExc.tweepy "rate limited")) ⟨"tok"⟩ "99" =
        Except.error (PyExc.tweepy "rate limited") ∧
      TwitterBlockUserBlock.block_user
        (fun _ _ => Except.error (PyExc.tweepy "rate limited")) ⟨"tok"⟩ "99" =
        Except.error (PyExc.tweepy "rate limited") ∧
      TwitterGetBlockedUsersBlock.get_blocked_users
        (fun _ _ => Except.error (PyExc.tweepy "rate limited")) (fun d => d)
        ⟨"tok"⟩ (some 10) none none none none =
        Except.error (PyExc.tweepy "rate limited")) := by
  have h := claim_C6_no_retry_exception_passthrough
    (fun _ _ => Except.error (PyExc.tweepy "rate limited"))
    (fun _ _ => Except.error (PyExc.tweepy "rate limited"))
    (fun _ _ => Except.error (PyExc.tweepy "rate limited")) (fun d => d)
    ⟨"tok"⟩ "99" (some 10) none none none none
    (PyExc.tweepy "rate limited") (PyExc.tweepy "rate limited")
    (PyExc.tweepy "rate limited") rfl rfl rfl
  exact ⟨rfl, (h.1 (fun _ _ => Except.error (PyExc.tweepy "rate limited"))
      ⟨"tok"⟩ "99").1, h.2.2.1, h.2.2.2.1, h.2.2.2.2⟩

/-- Claim C7: the success output of the block and unblock blocks, when
yielded at all, is always the boolean `True`. -/
theorem claim_C7_success_output_always_true
    (vu vb : TwitterCredentials → String → Except PyExc Unit)
    (credentials : TwitterCredentials)
    (iu : TwitterUnblockUserBlock.Input) (ib : TwitterBlockUserBlock.Input)
    (v w : OutValue)
    (hu : ("success", v) ∈ TwitterUnblockUserBlock.run vu iu credentials)
    (hb : ("success", w) ∈ TwitterBlockUserBlock.run vb ib credentials) :
    v = OutValue.bool true ∧ w = OutValue.bool true := by
  constructor
  · cases hres : TwitterUnblockUserBlock.unblock_user vu credentials
      iu.target_user_id with
    | error e =>
      rw [TwitterUnblockUserBlock.unblock_run_error_case vu iu credentials e hres]
        at hu
      simp at hu
    | ok b =>
      rw [TwitterUnblockUserBlock.unblock_run_ok_case vu iu credentials b hres] at hu
      have hb1 := TwitterUnblockUserBlock.unblock_user_ok vu credentials
        iu.target_user_id b hres
      simp at hu
      rw [hu, hb1]
  · cases hres : TwitterBlockUserBlock.block_user vb credentials
      ib.target_user_id with
    | error e =>
      rw [TwitterBlockUserBlock.block_run_error_case vb ib credentials e hres]
        at hb
      simp at hb
    | ok b =>
      rw [TwitterBlockUserBlock.block_run_ok_case vb ib credentials b hres] at hb
      have hb1 := TwitterBlockUserBlock.block_user_ok vb credentials
        ib.target_user_id b hres
      simp at hb
      rw [hb, hb1]

/-- Witness for C7: succeeding vendors at concrete inputs. -/
theorem claim_C7_witness :
    ("success", OutValue.bool true) ∈
      TwitterUnblockUserBlock.run
        (fun _ _ => Except.ok ()) ⟨"777"⟩ ⟨"tok"⟩ ∧
    ("success", OutValue.bool true) ∈
      TwitterBlockUserBlock.run
        (fun _ _ => Except.ok ()) ⟨"777"⟩ ⟨"tok"⟩ ∧
    (OutValue.bool true = OutValue.bool true ∧
      OutValue.bool true = OutValue.bool true) :=
  ⟨by decide, by decide,
    claim_C7_success_output_always_true (fun _ _ => Except.ok ())
      (fun _ _ => Except.ok ()) ⟨"tok"⟩ ⟨"777"⟩ ⟨"777"⟩
      (OutValue.bool true) (OutValue.bool true) (by decide) (by decide)⟩

/-- Claim C9: an empty-string pagination_token is normalised to None
before the vendor call, so the built request parameters and the whole
operation agree with a None pagination_token. -/
theorem claim_C9_empty_pagination_token_normalised
    (vendor : TwitterCredentials → BlockedRequest → Except PyExc Response)
    (serialize : Dict → Dict) (credentials : TwitterCredentials)
    (mr : Option Int) (ex : Option UserExpansionsFilter)
    (tf : Option TweetFieldsFilter) (uf : Option TweetUserFieldsFilter) :
    TwitterGetBlockedUsersBlock.requestParams mr (some "") ex tf uf =
      TwitterGetBlockedUsersBlock.requestParams mr none ex tf uf ∧
    TwitterGetBlockedUsersBlock.get_blocked_users vendor serialize
      credentials mr (some "") ex tf uf =
      TwitterGetBlockedUsersBlock.get_blocked_users vendor serialize
        credentials mr none ex tf uf ∧
    TwitterGetBlockedUsersBlock.run vendor serialize
      ⟨mr, some "", ex, tf, uf⟩ credentials =
      TwitterGetBlockedUsersBlock.run vendor serialize
        ⟨mr, none, ex, tf, uf⟩ credentials := by
  have h1 : TwitterGetBlockedUsersBlock.requestParams mr (some "") ex tf uf =
      TwitterGetBlockedUsersBlock.requestParams mr none ex tf uf := by
    simp [TwitterGetBlockedUsersBlock.requestParams]
  have h2 : TwitterGetBlockedUsersBlock.get_blocked_users vendor serialize
      credentials mr (some "") ex tf uf =
      TwitterGetBlockedUsersBlock.get_blocked_users vendor serialize
        credentials mr none ex tf uf := by
    simp only [TwitterGetBlockedUsersBlock.get_blocked_users,
      TwitterGetBlockedUsersBlock.get_blocked_usersT]
    rw [h1]
  refine ⟨h1, h2, ?_⟩
  unfold TwitterGetBlockedUsersBlock.run
  rw [show (⟨mr, some "", ex, tf, uf⟩ :
    TwitterGetBlockedUsersBlock.Input).pagination_token = some "" from rfl]
  rw [show (⟨mr, none, ex, tf, uf⟩ :
    TwitterGetBlockedUsersBlock.Input).pagination_token = none from rfl]
  rw [h2]

/-- Membership characterisation of the get-blocked run outputs on the
normal path: exactly the truthy payload fields are yielded. -/
theorem TwitterGetBlockedUsersBlock.mem_run_ok
    (vendor : TwitterCredentials → BlockedRequest → Except PyExc Response)
    (serialize : Dict → Dict) (input_data : Input)
    (credentials : TwitterCredentials) (incl meta : Dict)
    (ids names : List String) (nt : Option String) (x : String × OutValue)
    (hok : get_blocked_users vendor serialize credentials
      input_data.max_results input_data.pagination_token
      input_data.expansions input_data.tweet_fields input_data.user_fields =
      Except.ok (incl, meta, ids, names, nt)) :
    x ∈ run vendor serialize input_data credentials ↔
      (ids ≠ [] ∧ x = ("user_ids", OutValue.strList ids)) ∨
      (names ≠ [] ∧ x = ("usernames_", OutValue.strList names)) ∨
      (incl ≠ [] ∧ x = ("included", OutValue.dict incl)) ∨
      (meta ≠ [] ∧ x = ("meta", OutValue.dict meta)) ∨
      (∃ t, nt = some t ∧ t ≠ "" ∧ x = ("next_token", OutValue.str t)) := by
  rw [blocked_run_ok_case vendor serialize input_data credentials incl meta
    ids names nt hok]
  cases nt with
  | none =>
    split_ifs with h1 h2 h3 h4 <;> simp_all [List.isEmpty_iff, List.mem_append]
  | some t =>
    by_cases ht : t = "" <;>
      split_ifs with h1 h2 h3 h4 <;>
        simp_all [List.isEmpty_iff, List.mem_append]

/-- A successful `get_blocked_users` result has non-empty, equally long
id and username lists. -/
theorem TwitterGetBlockedUsersBlock.get_blocked_users_ok_inv
    (vendor : TwitterCredentials → BlockedRequest → Except PyExc Response)
    (serialize : Dict → Dict) (credentials : TwitterCredentials)
    (mr : Option Int) (pt : Option String)
    (ex : Option UserExpansionsFilter) (tf : Option TweetFieldsFilter)
    (uf : Option TweetUserFieldsFilter) (incl meta : Dict)
    (ids names : List String) (nt : Option String)
    (hok : get_blocked_users vendor serialize credentials mr pt ex tf uf =
      Except.ok (incl, meta, ids, names, nt)) :
    ids ≠ [] ∧ names ≠ [] ∧ ids.length = names.length := by
  cases hv : vendor credentials (requestParams mr pt ex tf uf) with
  | error e =>
    rw [get_blocked_users_vendor_error vendor serialize credentials
      mr pt ex tf uf e hv] at hok
    cases hok
  | ok resp =>
    rw [get_blocked_users_vendor_ok vendor serialize credentials
      mr pt ex tf uf resp hv] at hok
    by_cases hd : resp.data = []
    · rw [if_pos hd] at hok
      cases hok
    · rw [if_neg hd] at hok
      injection hok with h2
      simp only [Prod.mk.injEq] at h2
      obtain ⟨-, -, hids, hnames, -⟩ := h2
      subst hids
      subst hnames
      refine ⟨?_, ?_, ?_⟩ <;> simp [hd]

/-- Claim C1: if the vendor listing call yields no users, the operation
raises internally and the run generator emits an error output instead of
an empty success payload. -/
theorem claim_C1_empty_listing_is_error
    (vendor : TwitterCredentials → BlockedRequest → Except PyExc Response)
    (serialize : Dict → Dict) (credentials : TwitterCredentials)
    (mr : Option Int) (pt : Option String)
    (ex : Option UserExpansionsFilter) (tf : Option TweetFieldsFilter)
    (uf : Option TweetUserFieldsFilter) (resp : Response)
    (hv : vendor credentials (TwitterGetBlockedUsersBlock.requestParams
      mr pt ex tf uf) = Except.ok resp)
    (hempty : resp.data = []) :
    TwitterGetBlockedUsersBlock.get_blocked_users vendor serialize
      credentials mr pt ex tf uf =
      Except.error (PyExc.tweepy "No blocked users found") ∧
    TwitterGetBlockedUsersBlock.run vendor serialize ⟨mr, pt, ex, tf, uf⟩
      credentials =
      [("error", OutValue.str
        (handle_tweepy_exception (PyExc.tweepy "No blocked users found")))] := by
  have h1 := TwitterGetBlockedUsersBlock.get_blocked_users_vendor_ok vendor
    serialize credentials mr pt ex tf uf resp hv
  rw [if_pos hempty] at h1
  exact ⟨h1, TwitterGetBlockedUsersBlock.blocked_run_error_case vendor serialize
    ⟨mr, pt, ex, tf, uf⟩ credentials _ h1⟩

/-- Witness for C1: a vendor response with no users, at concrete inputs. -/
theorem claim_C1_witness :
    (fun (_ : TwitterCredentials) (_ : BlockedRequest) =>
      (Except.ok ⟨[], [], []⟩ : Except PyExc Response)) ⟨"tok"⟩
      (TwitterGetBlockedUsersBlock.requestParams (some 10) none none none
        none) = Except.ok ⟨[], [], []⟩ ∧
    (TwitterGetBlockedUsersBlock.get_blocked_users
        (fun _ _ => Except.ok ⟨[], [], []⟩) (fun d => d) ⟨"tok"⟩ (some 10)
        none none none none =
        Except.error (PyExc.tweepy "No blocked users found") ∧
      TwitterGetBlockedUsersBlock.run (fun _ _ => Except.ok ⟨[], [], []⟩)
        (fun d => d) ⟨some 10, none, none, none, none⟩ ⟨"tok"⟩ =
        [("error", OutValue.str (handle_tweepy_exception
          (PyExc.tweepy "No blocked users found")))]) :=
  ⟨rfl, claim_C1_empty_listing_is_error
    (fun _ _ => Except.ok ⟨[], [], []⟩) (fun d => d) ⟨"tok"⟩ (some 10)
    none none none none ⟨[], [], []⟩ rfl rfl⟩

/-- Claim C2: every successful get-blocked-users result has user_ids and
usernames of equal length, and at each index both come from the same
vendor user record. -/
theorem claim_C2_ids_usernames_aligned
    (vendor : TwitterCredentials → BlockedRequest → Except PyExc Response)
    (serialize : Dict → Dict) (credentials : TwitterCredentials)
    (mr : Option Int) (pt : Option String)
    (ex : Option UserExpansionsFilter) (tf : Option TweetFieldsFilter)
    (uf : Option TweetUserFieldsFilter) (resp : Response) (incl meta : Dict)
    (ids names : List String) (nt : Option String)
    (hv : vendor credentials (TwitterGetBlockedUsersBlock.requestParams
      mr pt ex tf uf) = Except.ok resp)
    (hok : TwitterGetBlockedUsersBlock.get_blocked_users vendor serialize
      credentials mr pt ex tf uf =
      Except.ok (incl, meta, ids, names, nt)) :
    ids.length = names.length ∧
    ∀ (i : Nat) (hi : i < ids.length) (hj : i < names.length)
      (hd : i < resp.data.length),
      ids.get ⟨i, hi⟩ = toString ((resp.data.get ⟨i, hd⟩).id) ∧
      names.get ⟨i, hj⟩ = (resp.data.get ⟨i, hd⟩).username := by
  rw [TwitterGetBlockedUsersBlock.get_blocked_users_vendor_ok vendor
    serialize credentials mr pt ex tf uf resp hv] at hok
  by_cases hd0 : resp.data = []
  · rw [if_pos hd0] at hok
    cases hok
  · rw [if_neg hd0] at hok
    injection hok with h2
    simp only [Prod.mk.injEq] at h2
    obtain ⟨-, -, hids, hnames, -⟩ := h2
    subst hids
    subst hnames
    refine ⟨by simp, ?_⟩
    intro i hi hj hd
    constructor <;> simp

/-- Witness for C2: a vendor response with two users, checked at index 0. -/
theorem claim_C2_witness :
    (fun (_ : TwitterCredentials) (_ : BlockedRequest) =>
      (Except.ok ⟨[⟨1, "alice"⟩, ⟨2, "bob"⟩], [], []⟩ :
        Except PyExc Response)) ⟨"tok"⟩
      (TwitterGetBlockedUsersBlock.requestParams (some 10) none none none
        none) = Except.ok ⟨[⟨1, "alice"⟩, ⟨2, "bob"⟩], [], []⟩ ∧
    TwitterGetBlockedUsersBlock.get_blocked_users
      (fun _ _ => Except.ok ⟨[⟨1, "alice"⟩, ⟨2, "bob"⟩], [], []⟩)
      (fun d => d) ⟨"tok"⟩ (some 10) none none none none =
      Except.ok ([], [], ["1", "2"], ["alice", "bob"], none) ∧
    (["1", "2"] : List String).length =
      (["alice", "bob"] : List String).length ∧
    ((["1", "2"] : List String).get ⟨0, by decide⟩ =
      toString ((([⟨1, "alice"⟩, ⟨2, "bob"⟩] : List TwUser).get
        ⟨0, by decide⟩).id) ∧
      (["alice", "bob"] : List String).get ⟨0, by decide⟩ =
        (([⟨1, "alice"⟩, ⟨2, "bob"⟩] : List TwUser).get
          ⟨0, by decide⟩).username) := by
  have hok : TwitterGetBlockedUsersBlock.get_blocked_users
      (fun _ _ => Except.ok ⟨[⟨1, "alice"⟩, ⟨2, "bob"⟩], [], []⟩)
      (fun d => d) ⟨"tok"⟩ (some 10) none none none none =
      Except.ok ([], [], ["1", "2"], ["alice", "bob"], none) := rfl
  have h := claim_C2_ids_usernames_aligned
    (fun _ _ => Except.ok ⟨[⟨1, "alice"⟩, ⟨2, "bob"⟩], [], []⟩)
    (fun d => d) ⟨"tok"⟩ (some 10) none none none none
    ⟨[⟨1, "alice"⟩, ⟨2, "bob"⟩], [], []⟩ [] [] ["1", "2"] ["alice", "bob"]
    none rfl hok
  exact ⟨rfl, hok, h.1, h.2 0 (by decide) (by decide) (by decide)⟩

/-- Claim C5: an invocation that yields an error output yields no
success-payload output: for each of the three blocks, if an error output
is yielded then none of the payload fields is yielded. -/
theorem claim_C5_error_excludes_payload
    (vu vb : TwitterCredentials → String → Except PyExc Unit)
    (vg : TwitterCredentials → BlockedRequest → Except PyExc Response)
    (serialize : Dict → Dict) (credentials : TwitterCredentials)
    (iu : TwitterUnblockUserBlock.Input) (ib : TwitterBlockUserBlock.Input)
    (ig : TwitterGetBlockedUsersBlock.Input) (eu eb eg : OutValue)
    (hu : ("error", eu) ∈ TwitterUnblockUserBlock.run vu iu credentials)
    (hb : ("error", eb) ∈ TwitterBlockUserBlock.run vb ib credentials)
    (hg : ("error", eg) ∈
      TwitterGetBlockedUsersBlock.run vg serialize ig credentials) :
    (∀ (k : String) (v : OutValue),
      k ∈ (["success", "user_ids", "usernames_", "included", "meta",
        "next_token"] : List String) →
      (k, v) ∉ TwitterUnblockUserBlock.run vu iu credentials) ∧
    (∀ (k : String) (v : OutValue),
      k ∈ (["success", "user_ids", "usernames_", "included", "meta",
        "next_token"] : List String) →
      (k, v) ∉ TwitterBlockUserBlock.run vb ib credentials) ∧
    (∀ (k : String) (v : OutValue),
      k ∈ (["success", "user_ids", "usernames_", "included", "meta",
        "next_token"] : List String) →
      (k, v) ∉ TwitterGetBlockedUsersBlock.run vg serialize ig
        credentials) := by
  refine ⟨?_, ?_, ?_⟩
  · cases hres : TwitterUnblockUserBlock.unblock_user vu credentials
      iu.target_user_id with
    | ok b =>
      rw [TwitterUnblockUserBlock.unblock_run_ok_case vu iu credentials b hres] at hu
      simp at hu
    | error e =>
      intro k v hk hkv
      rw [TwitterUnblockUserBlock.unblock_run_error_case vu iu credentials e hres]
        at hkv
      simp at hkv
      obtain ⟨hk1, -⟩ := hkv
      subst hk1
      simp at hk
  · cases hres : TwitterBlockUserBlock.block_user vb credentials
      ib.target_user_id with
    | ok b =>
      rw [TwitterBlockUserBlock.block_run_ok_case vb ib credentials b hres] at hb
      simp at hb
    | error e =>
      intro k v hk hkv
      rw [TwitterBlockUserBlock.block_run_error_case vb ib credentials e hres]
        at hkv
      simp at hkv
      obtain ⟨hk1, -⟩ := hkv
      subst hk1
      simp at hk
  · cases hres : TwitterGetBlockedUsersBlock.get_blocked_users vg serialize
      credentials ig.max_results ig.pagination_token ig.expansions
      ig.tweet_fields ig.user_fields with
    | ok p =>
      obtain ⟨incl, meta, ids, names, nt⟩ := p
      rw [TwitterGetBlockedUsersBlock.mem_run_ok vg serialize ig credentials
        incl meta ids names nt ("error", eg) hres] at hg
      simp at hg
    | error e =>
      intro k v hk hkv
      rw [TwitterGetBlockedUsersBlock.blocked_run_error_case vg serialize ig
        credentials e hres] at hkv
      simp at hkv
      obtain ⟨hk1, -⟩ := hkv
      subst hk1
      simp at hk

/-- Witness for C5: erroring vendors for all three blocks, projected to
a concrete excluded payload output. -/
theorem claim_C5_witness :
    ("error", OutValue.str (handle_tweepy_exception (PyExc.tweepy "x"))) ∈
      TwitterUnblockUserBlock.run
        (fun _ _ => Except.error (PyExc.tweepy "x")) ⟨"5"⟩ ⟨"tok"⟩ ∧
    ("error", OutValue.str (handle_tweepy_exception (PyExc.tweepy "x"))) ∈
      TwitterBlockUserBlock.run
        (fun _ _ => Except.error (PyExc.tweepy "x")) ⟨"5"⟩ ⟨"tok"⟩ ∧
    ("error", OutValue.str (handle_tweepy_exception (PyExc.tweepy "x"))) ∈
      TwitterGetBlockedUsersBlock.run
        (fun _ _ => Except.error (PyExc.tweepy "x")) (fun d => d)
        ⟨some 10, none, none, none, none⟩ ⟨"tok"⟩ ∧
    ("success", OutValue.bool true) ∉
      TwitterUnblockUserBlock.run
        (fun _ _ => Except.error (PyExc.tweepy "x")) ⟨"5"⟩ ⟨"tok"⟩ :=
  ⟨by decide, by decide, by decide,
    (claim_C5_error_excludes_payload
      (fun _ _ => Except.error (PyExc.tweepy "x"))
      (fun _ _ => Except.error (PyExc.tweepy "x"))
      (fun _ _ => Except.error (PyExc.tweepy "x")) (fun d => d) ⟨"tok"⟩
      ⟨"5"⟩ ⟨"5"⟩ ⟨some 10, none, none, none, none⟩
      (OutValue.str (handle_tweepy_exception (PyExc.tweepy "x")))
      (OutValue.str (handle_tweepy_exception (PyExc.tweepy "x")))
      (OutValue.str (handle_tweepy_exception (PyExc.tweepy "x")))
      (by decide) (by decide) (by decide)).1
      "success" (OutValue.bool true) (by decide)⟩

/-- Claim C8: on the success path the user_ids and usernames_ outputs are
always yielded with non-empty lists, while included, meta, and next_token
are yielded only when truthy. -/
theorem claim_C8_success_outputs_truthiness
    (vendor : TwitterCredentials → BlockedRequest → Except PyExc Response)
    (serialize : Dict → Dict) (input_data : TwitterGetBlockedUsersBlock.Input)
    (credentials : TwitterCredentials) (incl meta : Dict)
    (ids names : List String) (nt : Option String)
    (hok : TwitterGetBlockedUsersBlock.get_blocked_users vendor serialize
      credentials input_data.max_results input_data.pagination_token
      input_data.expansions input_data.tweet_fields input_data.user_fields =
      Except.ok (incl, meta, ids, names, nt)) :
    (ids ≠ [] ∧ ("user_ids", OutValue.strList ids) ∈
      TwitterGetBlockedUsersBlock.run vendor serialize input_data
        credentials) ∧
    (names ≠ [] ∧ ("usernames_", OutValue.strList names) ∈
      TwitterGetBlockedUsersBlock.run vendor serialize input_data
        credentials) ∧
    (("included", OutValue.dict incl) ∈
      TwitterGetBlockedUsersBlock.run vendor serialize input_data
        credentials ↔ incl ≠ []) ∧
    (("meta", OutValue.dict meta) ∈
      TwitterGetBlockedUsersBlock.run vendor serialize input_data
        credentials ↔ meta ≠ []) ∧
    (∀ (t : String), ("next_token", OutValue.str t) ∈
      TwitterGetBlockedUsersBlock.run vendor serialize input_data
        credentials → nt = some t ∧ t ≠ "") := by
  obtain ⟨hids, hnames, -⟩ :=
    TwitterGetBlockedUsersBlock.get_blocked_users_ok_inv vendor serialize
      credentials input_data.max_results input_data.pagination_token
      input_data.expansions input_data.tweet_fields input_data.user_fields
      incl meta ids names nt hok
  have hm := fun (x : String × OutValue) =>
    TwitterGetBlockedUsersBlock.mem_run_ok vendor serialize input_data
      credentials incl meta ids names nt x hok
  refine ⟨⟨hids, ?_⟩, ⟨hnames, ?_⟩, ?_, ?_, ?_⟩
  · exact (hm _).mpr (Or.inl ⟨hids, rfl⟩)
  · exact (hm _).mpr (Or.inr (Or.inl ⟨hnames, rfl⟩))
  · rw [hm _]
    simp
  · rw [hm _]
    simp
  · intro t ht
    have h2 := (hm _).mp ht
    simp at h2
    exact h2

/-- Witness for C8: a vendor response with one user, empty includes and
meta, and no next token. -/
theorem claim_C8_witness :
    TwitterGetBlockedUsersBlock.get_blocked_users
      (fun _ _ => Except.ok ⟨[⟨7, "carol"⟩], [], []⟩) (fun d => d) ⟨"tok"⟩
      (some 10) none none none none =
      Except.ok ([], [], ["7"], ["carol"], none) ∧
    ((["7"] : List String) ≠ [] ∧
      ("user_ids", OutValue.strList ["7"]) ∈
        TwitterGetBlockedUsersBlock.run
          (fun _ _ => Except.ok ⟨[⟨7, "carol"⟩], [], []⟩) (fun d => d)
          ⟨some 10, none, none, none, none⟩ ⟨"tok"⟩) ∧
    ((["carol"] : List String) ≠ [] ∧
      ("usernames_", OutValue.strList ["carol"]) ∈
        TwitterGetBlockedUsersBlock.run
          (fun _ _ => Except.ok ⟨[⟨7, "carol"⟩], [], []⟩) (fun d => d)
          ⟨some 10, none, none, none, none⟩ ⟨"tok"⟩) := by
  have hok : TwitterGetBlockedUsersBlock.get_blocked_users
      (fun _ _ => Except.ok ⟨[⟨7, "carol"⟩], [], []⟩) (fun d => d) ⟨"tok"⟩
      (some 10) none none none none =
      Except.ok ([], [], ["7"], ["carol"], none) := rfl
  have h := claim_C8_success_outputs_truthiness
    (fun _ _ => Except.ok ⟨[⟨7, "carol"⟩], [], []⟩) (fun d => d)
    ⟨some 10, none, none, none, none⟩ ⟨"tok"⟩ [] [] ["7"] ["carol"] none hok
  exact ⟨hok, h.1, h.2.1⟩
